import Mathlib

/-!
Verification development for the HyperDbg script-engine executor
(`ScriptEngineCommon.h`) and the event-forwarding subsystem
(`forwarding.cpp`).

Modelling conventions:
* machine integers are `Nat` with explicit `% 2 ^ w` where overflow matters;
* C undefined behavior (an out-of-bounds array access, a zero divisor reaching
  the machine division, a shift count of 64 or more, control falling off the
  end of a non-void function) is modelled by `Option.none` / `ExecOut.ub`.
  Note carefully: `none` is NOT an error value returned by the code — the C
  functions return plain `UINT64` / `void` and have no error channel at all;
* user-mode-only `printf` debug output and the kernel logging calls are side
  effects with no influence on state or results and are not modelled;
* the guest address space is a total function `Nat → Nat` giving the 64-bit
  value read at each address (the source dereferences unconditionally).
-/

/-! ### Constants

The numeric constants below (`SYMBOL_*_TYPE`, `FUNC_*`, `REGISTER_*`,
`PSEUDO_REGISTER_*`, `INVALID`) come from `ScriptEngineCommonDefinitions.h`,
which is not part of the inspected sources.  Modelled from the spec: the spec
only relies on the symbol types, opcodes and register ids being pairwise
distinct tags, so consecutive numbers are used; no claim depends on the exact
numeric values, only on their distinctness. -/

def SYMBOL_ID_TYPE : Nat := 0
def SYMBOL_NUM_TYPE : Nat := 1
def SYMBOL_REGISTER_TYPE : Nat := 2
def SYMBOL_PSEUDO_REG_TYPE : Nat := 3
def SYMBOL_SEMANTIC_RULE_TYPE : Nat := 4
def SYMBOL_TEMP_TYPE : Nat := 5

def FUNC_OR : Nat := 0
def FUNC_XOR : Nat := 1
def FUNC_AND : Nat := 2
def FUNC_ASR : Nat := 3
def FUNC_ASL : Nat := 4
def FUNC_ADD : Nat := 5
def FUNC_SUB : Nat := 6
def FUNC_MUL : Nat := 7
def FUNC_DIV : Nat := 8
def FUNC_MOD : Nat := 9
def FUNC_POI : Nat := 10
def FUNC_DB : Nat := 11
def FUNC_DW : Nat := 13
def FUNC_DQ : Nat := 14
def FUNC_STR : Nat := 15
def FUNC_SIZEOF : Nat := 16
def FUNC_WSTR : Nat := 17
def FUNC_NOT : Nat := 18
def FUNC_NEG : Nat := 19
def FUNC_HI : Nat := 20
def FUNC_LOW : Nat := 21
def FUNC_MOV : Nat := 22
def FUNC_PRINT : Nat := 23

def REGISTER_RAX : Nat := 0
def REGISTER_RCX : Nat := 1
def REGISTER_RDX : Nat := 2
def REGISTER_RBX : Nat := 3
def REGISTER_RSP : Nat := 4
def REGISTER_RBP : Nat := 5
def REGISTER_RSI : Nat := 6
def REGISTER_RDI : Nat := 7
def REGISTER_R8 : Nat := 8
def REGISTER_R9 : Nat := 9
def REGISTER_R10 : Nat := 10
def REGISTER_R11 : Nat := 11
def REGISTER_R12 : Nat := 12
def REGISTER_R13 : Nat := 13
def REGISTER_R14 : Nat := 14
def REGISTER_R15 : Nat := 15

def PSEUDO_REGISTER_TID : Nat := 0
def PSEUDO_REGISTER_PID : Nat := 1

/-- Sentinel used by the source both as an enum tag and as a numeric result
(`return INVALID;` inside `GetRegValue` / `GetPseudoRegValue`); only its
distinctness from the recognized register and pseudo-register ids matters. -/
def INVALID : Nat := 0x80000000

/-- Capacity of `g_VariableList` (`MAX_VAR_COUNT` in the source). -/
def MAX_VAR_COUNT : Nat := 32

/-- Capacity of `g_TempList` (`MAX_TEMP_COUNT` in the source). -/
def MAX_TEMP_COUNT : Nat := 32

/-! ### Data model of the script engine -/

/-- The `SYMBOL` cell of the bytecode: a tagged operand/instruction.
The C field named `Type` is rendered `SymType` (`Type` is reserved in Lean). -/
structure SYMBOL where
  SymType : Nat
  Value : Nat
deriving DecidableEq, Repr

/-- The `GUEST_REGS_USER_MODE` register snapshot: 16 general-purpose
64-bit registers. -/
structure GUEST_REGS_USER_MODE where
  rax : Nat
  rcx : Nat
  rdx : Nat
  rbx : Nat
  rsp : Nat
  rbp : Nat
  rsi : Nat
  rdi : Nat
  r8 : Nat
  r9 : Nat
  r10 : Nat
  r11 : Nat
  r12 : Nat
  r13 : Nat
  r14 : Nat
  r15 : Nat
deriving DecidableEq, Repr

/-- Environment supplying the pseudo-register values: in the source,
`ScriptEnginePseudoRegGetTid` / `ScriptEnginePseudoRegGetPid` query the OS
(`GetCurrentThreadId` / `GetCurrentProcessId`); they are modelled as fields
of an environment record. -/
structure PseudoEnv where
  tid : Nat
  pid : Nat
deriving DecidableEq, Repr

/-- Result of the 64-bit read `*Address` performed by every keyword helper
(each helper declares `QWORD Result = *Address` or a truncating variant of
it; the machine read is always through a `PUINT64`). -/
def read64 (mem : Nat → Nat) (Address : Nat) : Nat :=
  mem Address % 2 ^ 64

/-- Keyword `poi`: full 64-bit dereference. -/
def ScriptEngineKeywordPoi (mem : Nat → Nat) (Address : Nat) : Nat :=
  read64 mem Address

/-- Keyword `hi`: `HIWORD` of the 64-bit read, i.e.
`(WORD)(((DWORD)(l) >> 16) & 0xFFFF)`: truncate to 32 bits, shift right 16,
keep the low 16 bits. -/
def ScriptEngineKeywordHi (mem : Nat → Nat) (Address : Nat) : Nat :=
  ((read64 mem Address % 2 ^ 32) >>> 16) % 2 ^ 16

/-- Keyword `low`: `LOWORD` of the 64-bit read (`(WORD)(l)`). -/
def ScriptEngineKeywordLow (mem : Nat → Nat) (Address : Nat) : Nat :=
  read64 mem Address % 2 ^ 16

/-- Keyword `db`: `BYTE Result = *Address` — an 8-byte read truncated to the
low byte. -/
def ScriptEngineKeywordDb (mem : Nat → Nat) (Address : Nat) : Nat :=
  read64 mem Address % 2 ^ 8

/-- Keyword `dd`: `WORD Result = *Address` — truncated to 16 bits. -/
def ScriptEngineKeywordDd (mem : Nat → Nat) (Address : Nat) : Nat :=
  read64 mem Address % 2 ^ 16

/-- Keyword `dw`: `DWORD Result = *Address` — truncated to 32 bits. -/
def ScriptEngineKeywordDw (mem : Nat → Nat) (Address : Nat) : Nat :=
  read64 mem Address % 2 ^ 32

/-- Keyword `dq`: full 64-bit read. -/
def ScriptEngineKeywordDq (mem : Nat → Nat) (Address : Nat) : Nat :=
  read64 mem Address

/-- The source `GetRegValue`: a `switch` on `Symbol->Value` over the 16
named registers plus `case INVALID: return INVALID;`.  Any other id falls
off the end of this non-void function — undefined behavior, modelled `none`.
Note that for `Symbol->Value == INVALID` the function RETURNS the sentinel
`INVALID` as an ordinary numeric result (`some INVALID` here). -/
def GetRegValue (GuestRegs : GUEST_REGS_USER_MODE) (Symbol : SYMBOL) :
    Option Nat :=
  if Symbol.Value = REGISTER_RAX then some GuestRegs.rax
  else if Symbol.Value = REGISTER_RCX then some GuestRegs.rcx
  else if Symbol.Value = REGISTER_RDX then some GuestRegs.rdx
  else if Symbol.Value = REGISTER_RBX then some GuestRegs.rbx
  else if Symbol.Value = REGISTER_RSP then some GuestRegs.rsp
  else if Symbol.Value = REGISTER_RBP then some GuestRegs.rbp
  else if Symbol.Value = REGISTER_RSI then some GuestRegs.rsi
  else if Symbol.Value = REGISTER_RDI then some GuestRegs.rdi
  else if Symbol.Value = REGISTER_R8 then some GuestRegs.r8
  else if Symbol.Value = REGISTER_R9 then some GuestRegs.r9
  else if Symbol.Value = REGISTER_R10 then some GuestRegs.r10
  else if Symbol.Value = REGISTER_R11 then some GuestRegs.r11
  else if Symbol.Value = REGISTER_R12 then some GuestRegs.r12
  else if Symbol.Value = REGISTER_R13 then some GuestRegs.r13
  else if Symbol.Value = REGISTER_R14 then some GuestRegs.r14
  else if Symbol.Value = REGISTER_R15 then some GuestRegs.r15
  else if Symbol.Value = INVALID then some INVALID
  else none

/-- The source `GetPseudoRegValue`: a `switch` on `Symbol->Value` with cases
`PSEUDO_REGISTER_TID`, `PSEUDO_REGISTER_PID` and `case INVALID: return
INVALID;`; any other id falls off the end of the non-void function
(undefined behavior, `none`). -/
def GetPseudoRegValue (env : PseudoEnv) (Symbol : SYMBOL) : Option Nat :=
  if Symbol.Value = PSEUDO_REGISTER_TID then some env.tid
  else if Symbol.Value = PSEUDO_REGISTER_PID then some env.pid
  else if Symbol.Value = INVALID then some INVALID
  else none

/-- The source `GetValue`: a `switch` on `Symbol->Type`.  The bank reads
`g_VariableList[Symbol->Value]` / `g_TempList[Symbol->Value]` carry NO bounds
check in the source; an index past the end of the bank is an out-of-bounds
array access (undefined behavior), rendered by `List.getElem?` returning
`none`.  A `Type` matching no case falls off the end of the non-void
function (`none`). -/
def GetValue (GuestRegs : GUEST_REGS_USER_MODE) (env : PseudoEnv)
    (g_TempList g_VariableList : List Nat) (Symbol : SYMBOL) : Option Nat :=
  if Symbol.SymType = SYMBOL_ID_TYPE then g_VariableList[Symbol.Value]?
  else if Symbol.SymType = SYMBOL_NUM_TYPE then some Symbol.Value
  else if Symbol.SymType = SYMBOL_REGISTER_TYPE then GetRegValue GuestRegs Symbol
  else if Symbol.SymType = SYMBOL_PSEUDO_REG_TYPE then GetPseudoRegValue env Symbol
  else if Symbol.SymType = SYMBOL_TEMP_TYPE then g_TempList[Symbol.Value]?
  else none

/-- The source `SetValue`: a `switch` on `Symbol->Type` with only the
`SYMBOL_ID_TYPE` and `SYMBOL_TEMP_TYPE` cases performing a store; every
other type silently falls out of the `switch` and the `void` function
returns having done nothing (the banks are returned unchanged — there is no
error of any kind).  An in-range store is `List.set`; a store past the end
of a bank would be an out-of-bounds write (undefined behavior, `none`). -/
def SetValue (g_TempList g_VariableList : List Nat) (Symbol : SYMBOL)
    (Value : Nat) : Option (List Nat × List Nat) :=
  if Symbol.SymType = SYMBOL_ID_TYPE then
    if Symbol.Value < g_VariableList.length then
      some (g_TempList, g_VariableList.set Symbol.Value Value)
    else none
  else if Symbol.SymType = SYMBOL_TEMP_TYPE then
    if Symbol.Value < g_TempList.length then
      some (g_TempList.set Symbol.Value Value, g_VariableList)
    else none
  else some (g_TempList, g_VariableList)

/-- Outcome of one `ScriptEngineExecute` call: either a normal return with
the updated banks and the updated `*Indx` cursor, or undefined behavior
(`ub`: an out-of-bounds fetch or bank access, a faulting machine division,
a shift count of 64 or more, or control falling off a non-void helper). -/
inductive ExecOut
  | ok (g_TempList g_VariableList : List Nat) (Indx : Nat)
  | ub
deriving DecidableEq, Repr

/-- Shared shape of the ten binary arms of the dispatcher `switch`: fetch
`Src1`, resolve it, fetch `Des`, compute `DesVal = f SrcVal1 SrcVal0`
(note the operand order: the second-fetched `Src1` is the left argument,
exactly as in the source expressions `SrcVal1 OP SrcVal0`), then
`SetValue`.  `f` returns `none` when the machine operation itself is
undefined (zero divisor, oversized shift count). -/
def binArm (GuestRegs : GUEST_REGS_USER_MODE) (env : PseudoEnv)
    (g_TempList g_VariableList : List Nat) (CodeBuffer : List SYMBOL)
    (i2 : Nat) (f : Nat → Nat → Option Nat) (SrcVal0 : Nat) : ExecOut :=
  match CodeBuffer[i2]? with
  | none => ExecOut.ub
  | some Src1 =>
    match GetValue GuestRegs env g_TempList g_VariableList Src1 with
    | none => ExecOut.ub
    | some SrcVal1 =>
      match CodeBuffer[i2 + 1]? with
      | none => ExecOut.ub
      | some Des =>
        match f SrcVal1 SrcVal0 with
        | none => ExecOut.ub
        | some DesVal =>
          match SetValue g_TempList g_VariableList Des DesVal with
          | none => ExecOut.ub
          | some tv => ExecOut.ok tv.1 tv.2 (i2 + 2)

/-- Shared shape of the unary arms of the dispatcher `switch`: fetch `Des`,
compute `DesVal` (passed in, already an `Option` since resolving the operand
may itself be undefined), then `SetValue`. -/
def unArm (g_TempList g_VariableList : List Nat) (CodeBuffer : List SYMBOL)
    (i2 : Nat) (DesVal : Option Nat) : ExecOut :=
  match CodeBuffer[i2]? with
  | none => ExecOut.ub
  | some Des =>
    match DesVal with
    | none => ExecOut.ub
    | some dv =>
      match SetValue g_TempList g_VariableList Des dv with
      | none => ExecOut.ub
      | some tv => ExecOut.ok tv.1 tv.2 (i2 + 1)

/-- The `switch (Operator->Value)` of the source `ScriptEngineExecute`,
dispatching on the opcode `opv` with the first operand `Src0` already
fetched and resolved to `SrcVal0`, and the cursor at `i2` (past operator
and first operand).  An opcode matching no `case` falls out of the `switch`
and the `void` function returns normally.  `FUNC_STR` / `FUNC_WSTR` /
`FUNC_SIZEOF` only emit a user-mode `printf` ("... is not handled yet")
and return normally: no further symbols are consumed, the banks are
untouched, and the caller receives no error of any kind.  The `FUNC_DIV` /
`FUNC_MOD` arms compute `SrcVal1 / SrcVal0` / `SrcVal1 % SrcVal0` with NO
zero check in the source; a zero divisor is a machine `#DE` fault
(undefined behavior), hence the `none` guard inside the arm functions —
the guard models the fault, not a check performed by the code.  Shift
counts of 64 or more are likewise undefined in C.  Note the `FUNC_DW` arm
calls `ScriptEngineKeywordDb` — the same implementation as the `FUNC_DB`
arm.  The memory-read arms re-invoke `GetValue` on `Src0` exactly as the
source does. -/
def ScriptEngineDispatch (GuestRegs : GUEST_REGS_USER_MODE) (env : PseudoEnv)
    (mem : Nat → Nat) (g_TempList g_VariableList : List Nat)
    (CodeBuffer : List SYMBOL) (i2 : Nat) (opv : Nat) (Src0 : SYMBOL)
    (SrcVal0 : Nat) : ExecOut :=
  if opv = FUNC_OR then
    binArm GuestRegs env g_TempList g_VariableList CodeBuffer i2
      (fun b a => some (b ||| a)) SrcVal0
  else if opv = FUNC_XOR then
    binArm GuestRegs env g_TempList g_VariableList CodeBuffer i2
      (fun b a => some (b ^^^ a)) SrcVal0
  else if opv = FUNC_AND then
    binArm GuestRegs env g_TempList g_VariableList CodeBuffer i2
      (fun b a => some (b &&& a)) SrcVal0
  else if opv = FUNC_ASR then
    binArm GuestRegs env g_TempList g_VariableList CodeBuffer i2
      (fun b a => if a < 64 then some (b >>> a) else none) SrcVal0
  else if opv = FUNC_ASL then
    binArm GuestRegs env g_TempList g_VariableList CodeBuffer i2
      (fun b a => if a < 64 then some ((b <<< a) % 2 ^ 64) else none) SrcVal0
  else if opv = FUNC_ADD then
    binArm GuestRegs env g_TempList g_VariableList CodeBuffer i2
      (fun b a => some ((b + a) % 2 ^ 64)) SrcVal0
  else if opv = FUNC_SUB then
    binArm GuestRegs env g_TempList g_VariableList CodeBuffer i2
      (fun b a => some ((2 ^ 64 + b % 2 ^ 64 - a % 2 ^ 64) % 2 ^ 64)) SrcVal0
  else if opv = FUNC_MUL then
    binArm GuestRegs env g_TempList g_VariableList CodeBuffer i2
      (fun b a => some (b * a % 2 ^ 64)) SrcVal0
  else if opv = FUNC_DIV then
    binArm GuestRegs env g_TempList g_VariableList CodeBuffer i2
      (fun b a => if a = 0 then none else some (b / a)) SrcVal0
  else if opv = FUNC_MOD then
    binArm GuestRegs env g_TempList g_VariableList CodeBuffer i2
      (fun b a => if a = 0 then none else some (b % a)) SrcVal0
  else if opv = FUNC_POI then
    unArm g_TempList g_VariableList CodeBuffer i2
      ((GetValue GuestRegs env g_TempList g_VariableList Src0).map
        (ScriptEngineKeywordPoi mem))
  else if opv = FUNC_DB then
    unArm g_TempList g_VariableList CodeBuffer i2
      ((GetValue GuestRegs env g_TempList g_VariableList Src0).map
        (ScriptEngineKeywordDb mem))
  else if opv = FUNC_DW then
    unArm g_TempList g_VariableList CodeBuffer i2
      ((GetValue GuestRegs env g_TempList g_VariableList Src0).map
        (ScriptEngineKeywordDb mem))
  else if opv = FUNC_DQ then
    unArm g_TempList g_VariableList CodeBuffer i2
      ((GetValue GuestRegs env g_TempList g_VariableList Src0).map
        (ScriptEngineKeywordDq mem))
  else if opv = FUNC_STR then
    ExecOut.ok g_TempList g_VariableList i2
  else if opv = FUNC_WSTR then
    ExecOut.ok g_TempList g_VariableList i2
  else if opv = FUNC_SIZEOF then
    ExecOut.ok g_TempList g_VariableList i2
  else if opv = FUNC_NOT then
    unArm g_TempList g_VariableList CodeBuffer i2
      (some (2 ^ 64 - 1 - SrcVal0 % 2 ^ 64))
  else if opv = FUNC_NEG then
    unArm g_TempList g_VariableList CodeBuffer i2
      (some ((2 ^ 64 - SrcVal0 % 2 ^ 64) % 2 ^ 64))
  else if opv = FUNC_HI then
    unArm g_TempList g_VariableList CodeBuffer i2
      ((GetValue GuestRegs env g_TempList g_VariableList Src0).map
        (ScriptEngineKeywordHi mem))
  else if opv = FUNC_LOW then
    unArm g_TempList g_VariableList CodeBuffer i2
      ((GetValue GuestRegs env g_TempList g_VariableList Src0).map
        (ScriptEngineKeywordLow mem))
  else if opv = FUNC_MOV then
    unArm g_TempList g_VariableList CodeBuffer i2 (some SrcVal0)
  else if opv = FUNC_PRINT then
    ExecOut.ok g_TempList g_VariableList i2
  else
    ExecOut.ok g_TempList g_VariableList i2

/-- The source `ScriptEngineExecute`: fetch the `Operator` symbol at
`*Indx` and advance; the source then CHECKS `Operator->Type !=
SYMBOL_SEMANTIC_RULE_TYPE` but only emits a user-mode `printf` diagnostic
and falls through — the check has no effect on state or result, and the
`Type` field of the operator symbol is never consulted again (the `switch`
is on `Operator->Value` alone).  Then fetch `Src0`, resolve it, and enter
the dispatch `switch` (`ScriptEngineDispatch`).  `Tag` and
`ImmediateMessagePassing` only feed the print/log side effects, which are
not modelled.  A fetch past the end of `CodeBuffer` reads outside the
symbol buffer (undefined behavior). -/
def ScriptEngineExecute (GuestRegs : GUEST_REGS_USER_MODE) (env : PseudoEnv)
    (mem : Nat → Nat) (Tag : Nat) (ImmediateMessagePassing : Bool)
    (g_TempList g_VariableList : List Nat) (CodeBuffer : List SYMBOL)
    (Indx : Nat) : ExecOut :=
  match CodeBuffer[Indx]? with
  | none => ExecOut.ub
  | some Operator =>
    match CodeBuffer[Indx + 1]? with
    | none => ExecOut.ub
    | some Src0 =>
      match GetValue GuestRegs env g_TempList g_VariableList Src0 with
      | none => ExecOut.ub
      | some SrcVal0 =>
        ScriptEngineDispatch GuestRegs env mem g_TempList g_VariableList
          CodeBuffer (Indx + 2) Operator.Value Src0 SrcVal0

/-! ### Data model of the forwarding subsystem (`forwarding.cpp`)

The `DEBUGGER_EVENT_FORWARDING` record and the enum constants below come from
declaration headers that are not part of the inspected sources.  Modelled
from the spec and the uses in `forwarding.cpp`: only the distinctness of the
enum tags and the existence of the record fields matter to the claims; the
numeric values are arbitrary distinct tags. -/

def EVENT_FORWARDING_NAMEDPIPE : Nat := 0
def EVENT_FORWARDING_FILE : Nat := 1
def EVENT_FORWARDING_TCP : Nat := 2
def EVENT_FORWARDING_MODULE : Nat := 3

def EVENT_FORWARDING_STATE_NOT_OPENED : Nat := 0
def EVENT_FORWARDING_STATE_OPENED : Nat := 1
def EVENT_FORWARDING_CLOSED : Nat := 2

/-- Number of remote-source tag slots per event.  Modelled from the spec:
the constant's numeric value is absent from the inspected sources; no claim
depends on it beyond its being the loop bound. -/
def DebuggerOutputSourceMaximumRemoteSourceForSingleEvent : Nat := 5

/-- One output-source descriptor (`DEBUGGER_EVENT_FORWARDING`).  The C field
named `Type` is rendered `FwdType` (`Type` is reserved in Lean). -/
structure DEBUGGER_EVENT_FORWARDING where
  OutputUniqueTag : Nat
  State : Nat
  FwdType : Nat
  Handle : Nat
  Socket : Nat
deriving DecidableEq, Repr

/-- A record of one `WriteFile` call actually performed: the handle it was
given, the data buffer, and the byte count passed. -/
structure WriteCall where
  Handle : Nat
  Data : String
  Count : Nat
deriving DecidableEq, Repr

/-- The fixed local buffer `Hi` of `ForwardingWriteToFile`, written verbatim
from the source; note it does not depend on the `Message` argument. -/
def Hi : String :=
  "1003\n1006\n1009\n100A\n100B\n100D\n100F\n1013\n1016\n101A\n101D\n1021\n1024\n1028\n102B\n102F\n1032\n1036\n1039\n103D\n1040\n1044"

/-- The source `ForwardingWriteToFile`, including the instrumentation found
in it: a file-scope guard `bool is_true = false;` (threaded here as the
first argument, with the updated value returned first), the fixed `Hi`
payload written instead of `Message`, and an unconditional `return TRUE;`
placed immediately after the `WriteFile` call — the original
`ErrorFlag` / `BytesWritten != MessageLength` checks (source lines 526-559)
sit after that `return` and are unreachable, which is why the
`WriteFileOk` / `BytesWritten` outcomes of the `WriteFile` call (supplied
here by the environment) never influence the result.  Result triple:
(updated guard, returned `BOOLEAN`, list of `WriteFile` calls performed). -/
def ForwardingWriteToFile (is_true : Bool) (FileHandle : Nat)
    (Message : String) (MessageLength : Nat) (WriteFileOk : Bool)
    (BytesWritten : Nat) : Bool × Bool × List WriteCall :=
  if is_true = false then
    ⟨true, true, [⟨FileHandle, Hi, Hi.length⟩]⟩
  else
    ⟨is_true, true, []⟩

/-- The source `ForwardingSendToNamedPipe`: returns the Boolean result of
the external `NamedPipeClientSendMessage` (supplied by the environment). -/
def ForwardingSendToNamedPipe (SentMessageResult : Bool) : Bool :=
  if SentMessageResult = false then false else true

/-- The source `ForwardingSendToTcpSocket`: the external
`CommunicationClientSendMessage` returns 0 on success. -/
def ForwardingSendToTcpSocket (CommunicationResult : Nat) : Bool :=
  if CommunicationResult ≠ 0 then false else true

/-- Outcomes of the external sink calls made inside the dispatch `switch` of
`ForwardingPerformEventForwarding`: the raw results of
`NamedPipeClientSendMessage`, `ForwardingWriteToFile` and
`CommunicationClientSendMessage` for a given handle/socket.  (By
`ForwardingWriteToFile`'s own behavior the file sink in fact always returns
`TRUE`; leaving it an arbitrary environment outcome subsumes that.) -/
structure ForwardEnv where
  pipeSendResult : Nat → Bool
  fileWriteResult : Nat → Bool
  tcpSendResult : Nat → Nat

/-- One execution of the sink-dispatch `switch` on a matched, opened source:
`NAMEDPIPE` / `FILE` / `TCP` overwrite `Result` with the sink call's return
value, `MODULE` calls the module function and sets `Result = TRUE`, and the
`default` case leaves `Result` unchanged. -/
def sinkSend (env : ForwardEnv) (src : DEBUGGER_EVENT_FORWARDING)
    (Result : Bool) : Bool :=
  if src.FwdType = EVENT_FORWARDING_NAMEDPIPE then
    ForwardingSendToNamedPipe (env.pipeSendResult src.Handle)
  else if src.FwdType = EVENT_FORWARDING_FILE then
    env.fileWriteResult src.Handle
  else if src.FwdType = EVENT_FORWARDING_TCP then
    ForwardingSendToTcpSocket (env.tcpSendResult src.Socket)
  else if src.FwdType = EVENT_FORWARDING_MODULE then
    true
  else Result

/-- The inner `while` walk over the `g_OutputSources` list: find the first
descriptor whose `OutputUniqueTag` equals the event's tag slot; if it is in
the `OPENED` state, dispatch to its sink (updating `Result`), otherwise
leave `Result` unchanged; either way `break` after the first match.  If no
descriptor matches, `Result` is unchanged. -/
def searchAndSend (env : ForwardEnv) (srcs : List DEBUGGER_EVENT_FORWARDING)
    (tag : Nat) (Result : Bool) : Bool :=
  match srcs with
  | [] => Result
  | s :: rest =>
    if tag = s.OutputUniqueTag then
      if s.State = EVENT_FORWARDING_STATE_OPENED then sinkSend env s Result
      else Result
    else searchAndSend env rest tag Result

/-- The `for` loop of `ForwardingPerformEventForwarding`, with `fuel` the
number of remaining iterations (`DebuggerOutputSourceMaximumRemoteSourceForSingleEvent - i`):
on a `NULL` (`0`) tag slot it returns the accumulated `Result`; when the
loop runs to completion the function falls through to `return FALSE;`. -/
def forwardLoop (env : ForwardEnv) (srcs : List DEBUGGER_EVENT_FORWARDING)
    (tags : Nat → Nat) : Nat → Nat → Bool → Bool
  | 0, _, _ => false
  | fuel + 1, i, Result =>
    if tags i = 0 then Result
    else forwardLoop env srcs tags fuel (i + 1)
        (searchAndSend env srcs (tags i) Result)

/-- The source `ForwardingPerformEventForwarding`: `Result` starts `FALSE`,
the loop scans the event's `OutputSourceTags` slots (modelled as the
function `tags`, with `0` for `NULL`), and the only path that returns
`Result` is the early return on a `NULL` slot. -/
def ForwardingPerformEventForwarding (env : ForwardEnv)
    (srcs : List DEBUGGER_EVENT_FORWARDING) (tags : Nat → Nat) : Bool :=
  forwardLoop env srcs tags
    DebuggerOutputSourceMaximumRemoteSourceForSingleEvent 0 false

/-! ### Concrete fixtures used by witnesses and counterexamples -/

/-- An all-zero register snapshot. -/
def regs0 : GUEST_REGS_USER_MODE := ⟨0, 0, 0, 0, 0, 0, 0, 0, 0, 0, 0, 0, 0, 0, 0, 0⟩

/-- A concrete pseudo-register environment. -/
def env0 : PseudoEnv := ⟨1111, 2222⟩

/-- An all-zero guest address space. -/
def mem0 : Nat → Nat := fun _ => 0

/-- A fresh 32-slot temporary bank. -/
def temps0 : List Nat := List.replicate 32 0

/-- A fresh 32-slot variable bank. -/
def vars0 : List Nat := List.replicate 32 0

/-- A tag array with every slot non-`NULL`. -/
def tags1 : Nat → Nat := fun _ => 1

/-- An opened module-type output source with tag 1 (its module sink always
reports success). -/
def fwdSrc1 : DEBUGGER_EVENT_FORWARDING :=
  ⟨1, EVENT_FORWARDING_STATE_OPENED, EVENT_FORWARDING_MODULE, 0, 0⟩

/-- A concrete sink-outcome environment. -/
def fwdEnv0 : ForwardEnv := ⟨fun _ => true, fun _ => true, fun _ => 0⟩

/-! ### Step lemmas for the executor -/

/-- One fetch-decode step: on a buffer starting `operator :: Src0 :: ...`
with cursor 0, once `Src0` resolves to `a` the executor enters the dispatch
`switch` with the opcode `v` — and only `v`, never the operator symbol's
`SymType`. -/
theorem exec_cons_eq (GuestRegs : GUEST_REGS_USER_MODE) (env : PseudoEnv)
    (mem : Nat → Nat) (Tag : Nat) (imm : Bool) (temps vars : List Nat)
    (t v : Nat) (Src0 : SYMBOL) (rest : List SYMBOL) (a : Nat)
    (h0 : GetValue GuestRegs env temps vars Src0 = some a) :
    ScriptEngineExecute GuestRegs env mem Tag imm temps vars
      (⟨t, v⟩ :: Src0 :: rest) 0 =
      ScriptEngineDispatch GuestRegs env mem temps vars
        (⟨t, v⟩ :: Src0 :: rest) 2 v Src0 a := by
  unfold ScriptEngineExecute
  simp only [List.getElem?_cons_zero, List.getElem?_cons_succ, h0]

/-- Reduction of a binary arm when every fetch, resolution, computation and
store succeeds. -/
theorem binArm_ok (GuestRegs : GUEST_REGS_USER_MODE) (env : PseudoEnv)
    (temps vars : List Nat) (CodeBuffer : List SYMBOL) (i2 : Nat)
    (f : Nat → Nat → Option Nat) (a : Nat) (Src1 Des : SYMBOL) (b d : Nat)
    (tv : List Nat × List Nat)
    (h1 : CodeBuffer[i2]? = some Src1)
    (hs : GetValue GuestRegs env temps vars Src1 = some b)
    (h2 : CodeBuffer[i2 + 1]? = some Des)
    (hf : f b a = some d)
    (hset : SetValue temps vars Des d = some tv) :
    binArm GuestRegs env temps vars CodeBuffer i2 f a =
      ExecOut.ok tv.1 tv.2 (i2 + 2) := by
  unfold binArm
  simp only [h1, hs, h2, hf, hset]

/-- A binary arm whose operation is undefined at divisor `0` (the machine
division fault) yields `ub` whatever the rest of the buffer holds. -/
theorem binArm_zero_divisor (GuestRegs : GUEST_REGS_USER_MODE)
    (env : PseudoEnv) (temps vars : List Nat) (CodeBuffer : List SYMBOL)
    (i2 : Nat) (f : Nat → Nat → Option Nat)
    (hf : ∀ b, f b 0 = none) :
    binArm GuestRegs env temps vars CodeBuffer i2 f 0 = ExecOut.ub := by
  unfold binArm
  cases h1 : CodeBuffer[i2]? with
  | none => rfl
  | some Src1 =>
    dsimp only
    cases hs : GetValue GuestRegs env temps vars Src1 with
    | none => rfl
    | some b =>
      dsimp only
      cases h2 : CodeBuffer[i2 + 1]? with
      | none => rfl
      | some Des =>
        dsimp only
        simp only [hf]

/-- Reduction of a unary arm when the destination fetch, the value and the
store all succeed. -/
theorem unArm_ok (temps vars : List Nat) (CodeBuffer : List SYMBOL)
    (i2 : Nat) (DesVal : Option Nat) (Des : SYMBOL) (d : Nat)
    (tv : List Nat × List Nat)
    (h2 : CodeBuffer[i2]? = some Des)
    (hD : DesVal = some d)
    (hset : SetValue temps vars Des d = some tv) :
    unArm temps vars CodeBuffer i2 DesVal = ExecOut.ok tv.1 tv.2 (i2 + 1) := by
  unfold unArm
  simp only [h2, hD, hset]

/-- A store to a temporary-bank slot with an in-range index. -/
theorem setValue_temp (temps vars : List Nat) (k val : Nat)
    (hk : k < temps.length) :
    SetValue temps vars ⟨SYMBOL_TEMP_TYPE, k⟩ val =
      some (temps.set k val, vars) := by
  simp [SetValue, SYMBOL_ID_TYPE, SYMBOL_TEMP_TYPE, hk]

/-- A binary instruction whose destination is a temporary slot with an
in-range index: the slot receives `f b a` with the second-fetched operand
value `b` as the left argument. -/
theorem exec_bin_temp (GuestRegs : GUEST_REGS_USER_MODE) (env : PseudoEnv)
    (mem : Nat → Nat) (Tag : Nat) (imm : Bool) (temps vars : List Nat)
    (t opv : Nat) (Src0 Src1 : SYMBOL) (k : Nat) (rest : List SYMBOL)
    (a b : Nat) (f : Nat → Nat → Option Nat) (d : Nat)
    (hdisp : ∀ s, ScriptEngineDispatch GuestRegs env mem temps vars
      (⟨t, opv⟩ :: Src0 :: Src1 :: ⟨SYMBOL_TEMP_TYPE, k⟩ :: rest) 2 opv Src0 s =
      binArm GuestRegs env temps vars
        (⟨t, opv⟩ :: Src0 :: Src1 :: ⟨SYMBOL_TEMP_TYPE, k⟩ :: rest) 2 f s)
    (ha : GetValue GuestRegs env temps vars Src0 = some a)
    (hb : GetValue GuestRegs env temps vars Src1 = some b)
    (hk : k < temps.length)
    (hf : f b a = some d) :
    ScriptEngineExecute GuestRegs env mem Tag imm temps vars
      (⟨t, opv⟩ :: Src0 :: Src1 :: ⟨SYMBOL_TEMP_TYPE, k⟩ :: rest) 0 =
      ExecOut.ok (temps.set k d) vars 4 := by
  rw [exec_cons_eq GuestRegs env mem Tag imm temps vars t opv Src0
    (Src1 :: ⟨SYMBOL_TEMP_TYPE, k⟩ :: rest) a ha, hdisp a]
  exact binArm_ok GuestRegs env temps vars _ 2 f a Src1 ⟨SYMBOL_TEMP_TYPE, k⟩
    b d (temps.set k d, vars) (by simp) hb (by simp) hf
    (setValue_temp temps vars k d hk)

/-! ### Claim theorems -/

/-- C1: the source `FUNC_DIV` / `FUNC_MOD` arms compute `SrcVal1 / SrcVal0`
(resp. `%`) with NO divisor check of any kind: when the resolved `Src0`
(divisor) value is `0`, the machine division itself is reached and faults
(`ExecOut.ub` — undefined behavior), whatever the remainder of the buffer
holds; no `DivideByZero` error is ever produced, because the code has no
error channel at all.  This refutes the claim that execution "fails with
the DivideByZero error and never performs the machine division". -/
theorem div_mod_zero_divisor_faults (GuestRegs : GUEST_REGS_USER_MODE)
    (env : PseudoEnv) (mem : Nat → Nat) (Tag : Nat) (imm : Bool)
    (temps vars : List Nat) (t opv : Nat) (Src0 : SYMBOL)
    (rest : List SYMBOL)
    (hop : opv = FUNC_DIV ∨ opv = FUNC_MOD)
    (h0 : GetValue GuestRegs env temps vars Src0 = some 0) :
    ScriptEngineExecute GuestRegs env mem Tag imm temps vars
      (⟨t, opv⟩ :: Src0 :: rest) 0 = ExecOut.ub := by
  rcases hop with h | h <;> subst h <;>
    rw [exec_cons_eq GuestRegs env mem Tag imm temps vars t _ Src0 rest 0 h0]
  · exact binArm_zero_divisor GuestRegs env temps vars _ 2
      (fun b x => if x = 0 then none else some (b / x)) (fun b => rfl)
  · exact binArm_zero_divisor GuestRegs env temps vars _ 2
      (fun b x => if x = 0 then none else some (b % x)) (fun b => rfl)

/-- C1 witness: a concrete `DIV` with divisor literal `0` reaches the
machine division and faults. -/
theorem div_mod_zero_divisor_faults_witness :
    ScriptEngineExecute regs0 env0 mem0 0 false temps0 vars0
      [⟨SYMBOL_SEMANTIC_RULE_TYPE, FUNC_DIV⟩, ⟨SYMBOL_NUM_TYPE, 0⟩,
        ⟨SYMBOL_NUM_TYPE, 10⟩, ⟨SYMBOL_TEMP_TYPE, 0⟩] 0 = ExecOut.ub :=
  div_mod_zero_divisor_faults regs0 env0 mem0 0 false temps0 vars0
    SYMBOL_SEMANTIC_RULE_TYPE FUNC_DIV ⟨SYMBOL_NUM_TYPE, 0⟩
    [⟨SYMBOL_NUM_TYPE, 10⟩, ⟨SYMBOL_TEMP_TYPE, 0⟩] (Or.inl rfl) rfl

/-- C2: for every binary instruction (`OR`, `XOR`, `AND`, `ASR`, `ASL`,
`ADD`, `SUB`, `MUL`, `DIV`, `MOD`) with first-fetched operand value `a`
(`Src0`) and second-fetched operand value `b` (`Src1`), the destination
receives `b OP a` — the second-fetched operand is the left-hand side, with
64-bit wraparound where C overflows (the shift conjuncts assume a defined
shift count, the division conjuncts a nonzero divisor). -/
theorem binary_ops_src1_is_lhs (GuestRegs : GUEST_REGS_USER_MODE)
    (env : PseudoEnv) (mem : Nat → Nat) (Tag : Nat) (imm : Bool)
    (temps vars : List Nat) (t : Nat) (Src0 Src1 : SYMBOL) (k : Nat)
    (rest : List SYMBOL) (a b : Nat)
    (ha : GetValue GuestRegs env temps vars Src0 = some a)
    (hb : GetValue GuestRegs env temps vars Src1 = some b)
    (hk : k < temps.length) :
    (ScriptEngineExecute GuestRegs env mem Tag imm temps vars
      (⟨t, FUNC_OR⟩ :: Src0 :: Src1 :: ⟨SYMBOL_TEMP_TYPE, k⟩ :: rest) 0 =
      ExecOut.ok (temps.set k (b ||| a)) vars 4) ∧
    (ScriptEngineExecute GuestRegs env mem Tag imm temps vars
      (⟨t, FUNC_XOR⟩ :: Src0 :: Src1 :: ⟨SYMBOL_TEMP_TYPE, k⟩ :: rest) 0 =
      ExecOut.ok (temps.set k (b ^^^ a)) vars 4) ∧
    (ScriptEngineExecute GuestRegs env mem Tag imm temps vars
      (⟨t, FUNC_AND⟩ :: Src0 :: Src1 :: ⟨SYMBOL_TEMP_TYPE, k⟩ :: rest) 0 =
      ExecOut.ok (temps.set k (b &&& a)) vars 4) ∧
    (a < 64 →
      ScriptEngineExecute GuestRegs env mem Tag imm temps vars
        (⟨t, FUNC_ASR⟩ :: Src0 :: Src1 :: ⟨SYMBOL_TEMP_TYPE, k⟩ :: rest) 0 =
        ExecOut.ok (temps.set k (b >>> a)) vars 4) ∧
    (a < 64 →
      ScriptEngineExecute GuestRegs env mem Tag imm temps vars
        (⟨t, FUNC_ASL⟩ :: Src0 :: Src1 :: ⟨SYMBOL_TEMP_TYPE, k⟩ :: rest) 0 =
        ExecOut.ok (temps.set k ((b <<< a) % 2 ^ 64)) vars 4) ∧
    (ScriptEngineExecute GuestRegs env mem Tag imm temps vars
      (⟨t, FUNC_ADD⟩ :: Src0 :: Src1 :: ⟨SYMBOL_TEMP_TYPE, k⟩ :: rest) 0 =
      ExecOut.ok (temps.set k ((b + a) % 2 ^ 64)) vars 4) ∧
    (ScriptEngineExecute GuestRegs env mem Tag imm temps vars
      (⟨t, FUNC_SUB⟩ :: Src0 :: Src1 :: ⟨SYMBOL_TEMP_TYPE, k⟩ :: rest) 0 =
      ExecOut.ok
        (temps.set k ((2 ^ 64 + b % 2 ^ 64 - a % 2 ^ 64) % 2 ^ 64)) vars 4) ∧
    (ScriptEngineExecute GuestRegs env mem Tag imm temps vars
      (⟨t, FUNC_MUL⟩ :: Src0 :: Src1 :: ⟨SYMBOL_TEMP_TYPE, k⟩ :: rest) 0 =
      ExecOut.ok (temps.set k (b * a % 2 ^ 64)) vars 4) ∧
    (a ≠ 0 →
      ScriptEngineExecute GuestRegs env mem Tag imm temps vars
        (⟨t, FUNC_DIV⟩ :: Src0 :: Src1 :: ⟨SYMBOL_TEMP_TYPE, k⟩ :: rest) 0 =
        ExecOut.ok (temps.set k (b / a)) vars 4) ∧
    (a ≠ 0 →
      ScriptEngineExecute GuestRegs env mem Tag imm temps vars
        (⟨t, FUNC_MOD⟩ :: Src0 :: Src1 :: ⟨SYMBOL_TEMP_TYPE, k⟩ :: rest) 0 =
        ExecOut.ok (temps.set k (b % a)) vars 4) := by
  refine ⟨?_, ?_, ?_, fun h64 => ?_, fun h64 => ?_, ?_, ?_, ?_,
    fun ha0 => ?_, fun ha0 => ?_⟩
  · exact exec_bin_temp GuestRegs env mem Tag imm temps vars t FUNC_OR
      Src0 Src1 k rest a b (fun b x => some (b ||| x)) (b ||| a)
      (fun s => rfl) ha hb hk rfl
  · exact exec_bin_temp GuestRegs env mem Tag imm temps vars t FUNC_XOR
      Src0 Src1 k rest a b (fun b x => some (b ^^^ x)) (b ^^^ a)
      (fun s => rfl) ha hb hk rfl
  · exact exec_bin_temp GuestRegs env mem Tag imm temps vars t FUNC_AND
      Src0 Src1 k rest a b (fun b x => some (b &&& x)) (b &&& a)
      (fun s => rfl) ha hb hk rfl
  · exact exec_bin_temp GuestRegs env mem Tag imm temps vars t FUNC_ASR
      Src0 Src1 k rest a b
      (fun b x => if x < 64 then some (b >>> x) else none) (b >>> a)
      (fun s => rfl) ha hb hk (if_pos h64)
  · exact exec_bin_temp GuestRegs env mem Tag imm temps vars t FUNC_ASL
      Src0 Src1 k rest a b
      (fun b x => if x < 64 then some ((b <<< x) % 2 ^ 64) else none)
      ((b <<< a) % 2 ^ 64) (fun s => rfl) ha hb hk (if_pos h64)
  · exact exec_bin_temp GuestRegs env mem Tag imm temps vars t FUNC_ADD
      Src0 Src1 k rest a b (fun b x => some ((b + x) % 2 ^ 64))
      ((b + a) % 2 ^ 64) (fun s => rfl) ha hb hk rfl
  · exact exec_bin_temp GuestRegs env mem Tag imm temps vars t FUNC_SUB
      Src0 Src1 k rest a b
      (fun b x => some ((2 ^ 64 + b % 2 ^ 64 - x % 2 ^ 64) % 2 ^ 64))
      ((2 ^ 64 + b % 2 ^ 64 - a % 2 ^ 64) % 2 ^ 64)
      (fun s => rfl) ha hb hk rfl
  · exact exec_bin_temp GuestRegs env mem Tag imm temps vars t FUNC_MUL
      Src0 Src1 k rest a b (fun b x => some (b * x % 2 ^ 64))
      (b * a % 2 ^ 64) (fun s => rfl) ha hb hk rfl
  · exact exec_bin_temp GuestRegs env mem Tag imm temps vars t FUNC_DIV
      Src0 Src1 k rest a b
      (fun b x => if x = 0 then none else some (b / x)) (b / a)
      (fun s => rfl) ha hb hk (if_neg ha0)
  · exact exec_bin_temp GuestRegs env mem Tag imm temps vars t FUNC_MOD
      Src0 Src1 k rest a b
      (fun b x => if x = 0 then none else some (b % x)) (b % a)
      (fun s => rfl) ha hb hk (if_neg ha0)

/-- C2 witness: `SUB` with `Src0 = 5` and `Src1 = 10` stores `10 - 5 = 5`
(not `-5`): the second-fetched operand is the left-hand side. -/
theorem binary_ops_src1_is_lhs_witness :
    ScriptEngineExecute regs0 env0 mem0 0 false temps0 vars0
      [⟨SYMBOL_SEMANTIC_RULE_TYPE, FUNC_SUB⟩, ⟨SYMBOL_NUM_TYPE, 5⟩,
        ⟨SYMBOL_NUM_TYPE, 10⟩, ⟨SYMBOL_TEMP_TYPE, 0⟩] 0 =
      ExecOut.ok (temps0.set 0 5) vars0 4 := by
  have h := (binary_ops_src1_is_lhs regs0 env0 mem0 0 false temps0 vars0
    SYMBOL_SEMANTIC_RULE_TYPE ⟨SYMBOL_NUM_TYPE, 5⟩ ⟨SYMBOL_NUM_TYPE, 10⟩ 0 []
    5 10 rfl rfl (by decide)).2.2.2.2.2.2.1
  have e : (2 ^ 64 + 10 % 2 ^ 64 - 5 % 2 ^ 64) % 2 ^ 64 = 5 := by decide
  rw [e] at h
  exact h

/-- C3: the source bank reads `g_VariableList[Symbol->Value]` /
`g_TempList[Symbol->Value]` carry NO bounds check: a slot index at or past
the 32-entry capacity is an out-of-bounds array access (undefined behavior,
modelled `none`) — no `IndexOutOfRange` error value exists anywhere in the
code.  Indices 0 and 31 do succeed and return the stored bank value. -/
theorem bank_read_unchecked (GuestRegs : GUEST_REGS_USER_MODE)
    (env : PseudoEnv) (temps vars : List Nat)
    (hT : temps.length = 32) (hV : vars.length = 32) :
    (∀ v, 32 ≤ v →
      GetValue GuestRegs env temps vars ⟨SYMBOL_ID_TYPE, v⟩ = none ∧
      GetValue GuestRegs env temps vars ⟨SYMBOL_TEMP_TYPE, v⟩ = none) ∧
    (∀ x, vars[0]? = some x →
      GetValue GuestRegs env temps vars ⟨SYMBOL_ID_TYPE, 0⟩ = some x) ∧
    (∀ x, vars[31]? = some x →
      GetValue GuestRegs env temps vars ⟨SYMBOL_ID_TYPE, 31⟩ = some x) ∧
    (∀ x, temps[0]? = some x →
      GetValue GuestRegs env temps vars ⟨SYMBOL_TEMP_TYPE, 0⟩ = some x) ∧
    (∀ x, temps[31]? = some x →
      GetValue GuestRegs env temps vars ⟨SYMBOL_TEMP_TYPE, 31⟩ = some x) := by
  refine ⟨fun v hv => ⟨?_, ?_⟩, fun x hx => ?_, fun x hx => ?_,
    fun x hx => ?_, fun x hx => ?_⟩
  · simp [GetValue, SYMBOL_ID_TYPE]
    omega
  · simp [GetValue, SYMBOL_ID_TYPE, SYMBOL_NUM_TYPE, SYMBOL_REGISTER_TYPE,
      SYMBOL_PSEUDO_REG_TYPE, SYMBOL_TEMP_TYPE]
    omega
  · simpa [GetValue, SYMBOL_ID_TYPE] using hx
  · simpa [GetValue, SYMBOL_ID_TYPE] using hx
  · simpa [GetValue, SYMBOL_ID_TYPE, SYMBOL_NUM_TYPE, SYMBOL_REGISTER_TYPE,
      SYMBOL_PSEUDO_REG_TYPE, SYMBOL_TEMP_TYPE] using hx
  · simpa [GetValue, SYMBOL_ID_TYPE, SYMBOL_NUM_TYPE, SYMBOL_REGISTER_TYPE,
      SYMBOL_PSEUDO_REG_TYPE, SYMBOL_TEMP_TYPE] using hx

/-- C3 witness: against fresh 32-slot banks, index 32 is an out-of-bounds
access while indices 0 and 31 return the stored values. -/
theorem bank_read_unchecked_witness :
    GetValue regs0 env0 temps0 vars0 ⟨SYMBOL_ID_TYPE, 32⟩ = none ∧
    GetValue regs0 env0 temps0 vars0 ⟨SYMBOL_ID_TYPE, 31⟩ = some 0 ∧
    GetValue regs0 env0 temps0 vars0 ⟨SYMBOL_TEMP_TYPE, 32⟩ = none := by
  have h := bank_read_unchecked regs0 env0 temps0 vars0 rfl rfl
  exact ⟨(h.1 32 le_rfl).1, h.2.2.1 0 rfl, (h.1 32 le_rfl).2⟩

/-- C4 counterexample: an assignment whose destination is a `NumericLiteral`
symbol does NOT fail — there is no `InvalidDestination` (or any other)
error in the code.  A concrete `MOV` with destination `⟨SYMBOL_NUM_TYPE,
99⟩` completes normally: `SetValue` silently ignores the store and both
banks are unchanged. -/
theorem nonbank_destination_does_not_fail_cex :
    ScriptEngineExecute regs0 env0 mem0 0 false temps0 vars0
      [⟨SYMBOL_SEMANTIC_RULE_TYPE, FUNC_MOV⟩, ⟨SYMBOL_NUM_TYPE, 7⟩,
        ⟨SYMBOL_NUM_TYPE, 99⟩] 0 =
      ExecOut.ok temps0 vars0 3 := by decide

/-- C4 as amended: assignment to a `NumericLiteral`, `Register` or
`PseudoRegister` destination is silently ignored (`SetValue` returns both
banks unchanged, with no error of any kind); assignment to a
`ScriptVariable` / `Temporary` destination with a valid index succeeds, and
a subsequent read of the same slot returns the written value. -/
theorem setvalue_nonbank_noop_and_roundtrip (GuestRegs : GUEST_REGS_USER_MODE)
    (env : PseudoEnv) (temps vars : List Nat) (tp v val : Nat)
    (htp : tp = SYMBOL_NUM_TYPE ∨ tp = SYMBOL_REGISTER_TYPE ∨
      tp = SYMBOL_PSEUDO_REG_TYPE) :
    SetValue temps vars ⟨tp, v⟩ val = some (temps, vars) ∧
    (∀ k, k < vars.length →
      SetValue temps vars ⟨SYMBOL_ID_TYPE, k⟩ val =
        some (temps, vars.set k val) ∧
      GetValue GuestRegs env temps (vars.set k val) ⟨SYMBOL_ID_TYPE, k⟩ =
        some val) ∧
    (∀ k, k < temps.length →
      SetValue temps vars ⟨SYMBOL_TEMP_TYPE, k⟩ val =
        some (temps.set k val, vars) ∧
      GetValue GuestRegs env (temps.set k val) vars ⟨SYMBOL_TEMP_TYPE, k⟩ =
        some val) := by
  refine ⟨?_, ?_, ?_⟩
  · rcases htp with h | h | h <;> subst h <;> rfl
  · intro k hk
    constructor
    · simp [SetValue, SYMBOL_ID_TYPE, hk]
    · simp [GetValue, SYMBOL_ID_TYPE, List.getElem?_set_self hk]
  · intro k hk
    constructor
    · simp [SetValue, SYMBOL_ID_TYPE, SYMBOL_TEMP_TYPE, hk]
    · simp [GetValue, SYMBOL_ID_TYPE, SYMBOL_NUM_TYPE, SYMBOL_REGISTER_TYPE,
        SYMBOL_PSEUDO_REG_TYPE, SYMBOL_TEMP_TYPE, List.getElem?_set_self hk]

/-- C4 witness: concrete instances of the amended claim — a store to a
`NumericLiteral` destination leaves the banks unchanged, and a store to
variable slot 0 is returned by a subsequent read. -/
theorem setvalue_nonbank_noop_and_roundtrip_witness :
    SetValue temps0 vars0 ⟨SYMBOL_NUM_TYPE, 3⟩ 7 = some (temps0, vars0) ∧
    GetValue regs0 env0 temps0 (vars0.set 0 7) ⟨SYMBOL_ID_TYPE, 0⟩ =
      some 7 := by
  have h := setvalue_nonbank_noop_and_roundtrip regs0 env0 temps0 vars0
    SYMBOL_NUM_TYPE 3 7 (Or.inl rfl)
  exact ⟨h.1, (h.2.1 0 (by decide)).2⟩

/-- C5: resolving an unrecognized `Register` or `PseudoRegister` id does
NOT fail with an `InvalidRegister` error — no such error exists in the
code.  For `Value == INVALID` both resolvers RETURN the numeric sentinel
`INVALID` as an ordinary result; for every other id outside the recognized
set, control falls off the end of the non-void `switch` function
(undefined behavior, modelled `none`). -/
theorem unrecognized_register_sentinel_or_ub (GuestRegs : GUEST_REGS_USER_MODE)
    (env : PseudoEnv) :
    GetRegValue GuestRegs ⟨SYMBOL_REGISTER_TYPE, INVALID⟩ = some INVALID ∧
    (∀ v, 16 ≤ v → v ≠ INVALID →
      GetRegValue GuestRegs ⟨SYMBOL_REGISTER_TYPE, v⟩ = none) ∧
    GetPseudoRegValue env ⟨SYMBOL_PSEUDO_REG_TYPE, INVALID⟩ = some INVALID ∧
    (∀ v, 2 ≤ v → v ≠ INVALID →
      GetPseudoRegValue env ⟨SYMBOL_PSEUDO_REG_TYPE, v⟩ = none) := by
  refine ⟨rfl, ?_, rfl, ?_⟩
  · intro v h16 hInv
    simp only [INVALID] at hInv
    simp only [GetRegValue, REGISTER_RAX, REGISTER_RCX, REGISTER_RDX,
      REGISTER_RBX, REGISTER_RSP, REGISTER_RBP, REGISTER_RSI, REGISTER_RDI,
      REGISTER_R8, REGISTER_R9, REGISTER_R10, REGISTER_R11, REGISTER_R12,
      REGISTER_R13, REGISTER_R14, REGISTER_R15, INVALID]
    rw [if_neg (show ¬v = 0 by omega), if_neg (show ¬v = 1 by omega),
      if_neg (show ¬v = 2 by omega), if_neg (show ¬v = 3 by omega),
      if_neg (show ¬v = 4 by omega), if_neg (show ¬v = 5 by omega),
      if_neg (show ¬v = 6 by omega), if_neg (show ¬v = 7 by omega),
      if_neg (show ¬v = 8 by omega), if_neg (show ¬v = 9 by omega),
      if_neg (show ¬v = 10 by omega), if_neg (show ¬v = 11 by omega),
      if_neg (show ¬v = 12 by omega), if_neg (show ¬v = 13 by omega),
      if_neg (show ¬v = 14 by omega), if_neg (show ¬v = 15 by omega),
      if_neg hInv]
  · intro v h2 hInv
    simp only [INVALID] at hInv
    simp only [GetPseudoRegValue, PSEUDO_REGISTER_TID, PSEUDO_REGISTER_PID,
      INVALID]
    rw [if_neg (show ¬v = 0 by omega), if_neg (show ¬v = 1 by omega),
      if_neg hInv]

/-- C5 witness: concrete unrecognized ids — register id 16 and
pseudo-register id 5 both fall off the `switch` (no error value is ever
produced). -/
theorem unrecognized_register_sentinel_or_ub_witness :
    GetRegValue regs0 ⟨SYMBOL_REGISTER_TYPE, 16⟩ = none ∧
    GetPseudoRegValue env0 ⟨SYMBOL_PSEUDO_REG_TYPE, 5⟩ = none := by
  have h := unrecognized_register_sentinel_or_ub regs0 env0
  exact ⟨h.2.1 16 (by decide) (by decide), h.2.2.2 5 (by decide) (by decide)⟩

/-- The binary arms read the buffer only at indices 2 and 3, so the cell at
index 0 — the operator symbol — is irrelevant to them. -/
theorem binArm_head_irrel (GuestRegs : GUEST_REGS_USER_MODE)
    (env : PseudoEnv) (temps vars : List Nat) (x y : SYMBOL)
    (l : List SYMBOL) (f : Nat → Nat → Option Nat) (s : Nat) :
    binArm GuestRegs env temps vars (x :: l) 2 f s =
      binArm GuestRegs env temps vars (y :: l) 2 f s := by
  unfold binArm
  simp only [List.getElem?_cons_succ]

/-- The unary arms read the buffer only at index 2, so the cell at index 0
is irrelevant to them. -/
theorem unArm_head_irrel (temps vars : List Nat) (x y : SYMBOL)
    (l : List SYMBOL) (D : Option Nat) :
    unArm temps vars (x :: l) 2 D = unArm temps vars (y :: l) 2 D := by
  unfold unArm
  simp only [List.getElem?_cons_succ]

set_option maxHeartbeats 2000000 in
/-- The dispatch `switch` never reads the operator cell of the buffer: its
result is unchanged when that cell is replaced. -/
theorem dispatch_head_irrel (GuestRegs : GUEST_REGS_USER_MODE)
    (env : PseudoEnv) (mem : Nat → Nat) (temps vars : List Nat)
    (x y : SYMBOL) (l : List SYMBOL) (v : Nat) (Src0 : SYMBOL) (s : Nat) :
    ScriptEngineDispatch GuestRegs env mem temps vars (x :: l) 2 v Src0 s =
      ScriptEngineDispatch GuestRegs env mem temps vars (y :: l) 2 v Src0 s := by
  unfold ScriptEngineDispatch
  repeat' apply if_congr Iff.rfl
  all_goals rfl

/-- C6: a cursor symbol whose `Type` is not `SYMBOL_SEMANTIC_RULE_TYPE`
does NOT make the step fail: the source only emits a user-mode `printf`
diagnostic and continues, so (first conjunct) the result never depends on
the operator symbol's `Type` field at all, and (second conjunct) a concrete
`MOV` whose operator cell is typed `SYMBOL_NUM_TYPE` still fetches its
operands, resolves them and assigns the result — no `MalformedBytecode`
error exists in the code. -/
theorem operator_type_check_no_effect (GuestRegs : GUEST_REGS_USER_MODE)
    (env : PseudoEnv) (mem : Nat → Nat) (Tag : Nat) (imm : Bool)
    (temps vars : List Nat) (t1 t2 v : Nat) (rest : List SYMBOL) :
    (ScriptEngineExecute GuestRegs env mem Tag imm temps vars
      (⟨t1, v⟩ :: rest) 0 =
    ScriptEngineExecute GuestRegs env mem Tag imm temps vars
      (⟨t2, v⟩ :: rest) 0) ∧
    ScriptEngineExecute regs0 env0 mem0 0 false temps0 vars0
      [⟨SYMBOL_NUM_TYPE, FUNC_MOV⟩, ⟨SYMBOL_NUM_TYPE, 7⟩,
        ⟨SYMBOL_ID_TYPE, 0⟩] 0 =
      ExecOut.ok temps0 (vars0.set 0 7) 3 := by
  constructor
  · unfold ScriptEngineExecute
    simp only [List.getElem?_cons_zero, List.getElem?_cons_succ]
    cases rest[0]? with
    | none => rfl
    | some Src0 =>
      dsimp only
      cases GetValue GuestRegs env temps vars Src0 with
      | none => rfl
      | some s =>
        dsimp only
        exact dispatch_head_irrel GuestRegs env mem temps vars ⟨t1, v⟩
          ⟨t2, v⟩ rest v Src0 s
  · decide

/-- C7: the dispatcher's `FUNC_DW` case is wired to `ScriptEngineKeywordDb`,
the very same implementation as its `FUNC_DB` case: for every state and
buffer the two instructions execute identically (first conjunct), and both
store the 8-bit truncation of the 64-bit read at the resolved address
(second conjunct). -/
theorem dw_case_equals_db_case (GuestRegs : GUEST_REGS_USER_MODE)
    (env : PseudoEnv) (mem : Nat → Nat) (Tag : Nat) (imm : Bool)
    (temps vars : List Nat) (t : Nat) (Src0 : SYMBOL) (rest : List SYMBOL) :
    (ScriptEngineExecute GuestRegs env mem Tag imm temps vars
      (⟨t, FUNC_DW⟩ :: Src0 :: rest) 0 =
    ScriptEngineExecute GuestRegs env mem Tag imm temps vars
      (⟨t, FUNC_DB⟩ :: Src0 :: rest) 0) ∧
    (∀ k addr, GetValue GuestRegs env temps vars Src0 = some addr →
      k < temps.length →
      ScriptEngineExecute GuestRegs env mem Tag imm temps vars
        (⟨t, FUNC_DW⟩ :: Src0 :: [⟨SYMBOL_TEMP_TYPE, k⟩]) 0 =
        ExecOut.ok (temps.set k (read64 mem addr % 2 ^ 8)) vars 3) := by
  constructor
  · unfold ScriptEngineExecute
    simp only [List.getElem?_cons_zero, List.getElem?_cons_succ]
    cases GetValue GuestRegs env temps vars Src0 with
    | none => rfl
    | some s =>
      dsimp only
      calc ScriptEngineDispatch GuestRegs env mem temps vars
            (⟨t, FUNC_DW⟩ :: Src0 :: rest) (0 + 2) FUNC_DW Src0 s
          = unArm temps vars (⟨t, FUNC_DW⟩ :: Src0 :: rest) 2
              ((GetValue GuestRegs env temps vars Src0).map
                (ScriptEngineKeywordDb mem)) := rfl
        _ = unArm temps vars (⟨t, FUNC_DB⟩ :: Src0 :: rest) 2
              ((GetValue GuestRegs env temps vars Src0).map
                (ScriptEngineKeywordDb mem)) :=
            unArm_head_irrel temps vars ⟨t, FUNC_DW⟩ ⟨t, FUNC_DB⟩
              (Src0 :: rest) _
        _ = ScriptEngineDispatch GuestRegs env mem temps vars
              (⟨t, FUNC_DB⟩ :: Src0 :: rest) (0 + 2) FUNC_DB Src0 s := rfl
  · intro k addr haddr hk
    rw [exec_cons_eq GuestRegs env mem Tag imm temps vars t FUNC_DW Src0
      [⟨SYMBOL_TEMP_TYPE, k⟩] addr haddr]
    exact unArm_ok temps vars
      (⟨t, FUNC_DW⟩ :: Src0 :: [⟨SYMBOL_TEMP_TYPE, k⟩]) 2
      ((GetValue GuestRegs env temps vars Src0).map (ScriptEngineKeywordDb mem))
      ⟨SYMBOL_TEMP_TYPE, k⟩ (ScriptEngineKeywordDb mem addr)
      (temps.set k (ScriptEngineKeywordDb mem addr), vars)
      (by simp) (by rw [haddr]; rfl)
      (setValue_temp temps vars k (ScriptEngineKeywordDb mem addr) hk)

/-- C7 witness: a concrete `DW` instruction against the all-zero address
space stores the low byte of the 64-bit read. -/
theorem dw_case_equals_db_case_witness :
    ScriptEngineExecute regs0 env0 mem0 0 false temps0 vars0
      [⟨SYMBOL_SEMANTIC_RULE_TYPE, FUNC_DW⟩, ⟨SYMBOL_NUM_TYPE, 77⟩,
        ⟨SYMBOL_TEMP_TYPE, 0⟩] 0 =
      ExecOut.ok (temps0.set 0 (read64 mem0 77 % 2 ^ 8)) vars0 3 :=
  (dw_case_equals_db_case regs0 env0 mem0 0 false temps0 vars0
    SYMBOL_SEMANTIC_RULE_TYPE ⟨SYMBOL_NUM_TYPE, 77⟩ []).2 0 77 rfl (by decide)

/-- C8 counterexample: a `STR` instruction does NOT report any
`UnsupportedOperation` error — the step returns the same plain normal
completion (`ExecOut.ok`, banks untouched) as a successful instruction; the
only report in the source is a user-mode debug `printf`, invisible to the
caller of the `void` function. -/
theorem str_returns_plain_success_cex :
    ScriptEngineExecute regs0 env0 mem0 0 false temps0 vars0
      [⟨SYMBOL_SEMANTIC_RULE_TYPE, FUNC_STR⟩, ⟨SYMBOL_NUM_TYPE, 0⟩] 0 =
      ExecOut.ok temps0 vars0 2 := by decide

/-- C8 as amended: `STR`, `WSTR` and `SIZEOF` execute as no-ops: provided
the unconditionally-fetched first operand resolves, the step returns
normally with both storage banks unchanged and the cursor advanced exactly
two symbols (operator and first operand); no error result is produced —
the only report is a user-mode debug print. -/
theorem str_wstr_sizeof_noop (GuestRegs : GUEST_REGS_USER_MODE)
    (env : PseudoEnv) (mem : Nat → Nat) (Tag : Nat) (imm : Bool)
    (temps vars : List Nat) (t opv w : Nat) (Src0 : SYMBOL)
    (rest : List SYMBOL)
    (hop : opv = FUNC_STR ∨ opv = FUNC_WSTR ∨ opv = FUNC_SIZEOF)
    (h0 : GetValue GuestRegs env temps vars Src0 = some w) :
    ScriptEngineExecute GuestRegs env mem Tag imm temps vars
      (⟨t, opv⟩ :: Src0 :: rest) 0 = ExecOut.ok temps vars 2 := by
  rcases hop with h | h | h <;> subst h <;>
    rw [exec_cons_eq GuestRegs env mem Tag imm temps vars t _ Src0 rest w h0] <;>
    rfl

/-- C8 witness: a concrete `WSTR` instruction returns normally with both
banks unchanged and the cursor advanced by two. -/
theorem str_wstr_sizeof_noop_witness :
    ScriptEngineExecute regs0 env0 mem0 0 false temps0 vars0
      [⟨SYMBOL_SEMANTIC_RULE_TYPE, FUNC_WSTR⟩, ⟨SYMBOL_NUM_TYPE, 3⟩] 0 =
      ExecOut.ok temps0 vars0 2 :=
  str_wstr_sizeof_noop regs0 env0 mem0 0 false temps0 vars0
    SYMBOL_SEMANTIC_RULE_TYPE FUNC_WSTR 3 ⟨SYMBOL_NUM_TYPE, 3⟩ []
    (Or.inr (Or.inl rfl)) rfl

/-- C9: `ForwardingWriteToFile` writes the fixed debug payload `Hi`
independently of the `Message` argument, the `is_true` guard lets only the
very first call (on any handle) perform a write while every later call
returns `TRUE` immediately without writing, and — because the unconditional
`return TRUE;` precedes the error-checking logic (source lines 526-559,
unreachable) — the function returns `TRUE` on every call regardless of
whether `WriteFile` succeeded or all `MessageLength` bytes were written. -/
theorem forwarding_write_to_file_instrumented (is_true : Bool)
    (FileHandle : Nat) (Message : String) (MessageLength : Nat)
    (WriteFileOk : Bool) (BytesWritten : Nat) :
    ForwardingWriteToFile is_true FileHandle Message MessageLength
      WriteFileOk BytesWritten =
      ⟨true, true, if is_true then [] else [⟨FileHandle, Hi, Hi.length⟩]⟩ := by
  cases is_true <;> rfl

/-- Helper for C10: if every tag slot scanned by the remaining loop
iterations is non-`NULL`, the loop runs to completion and falls through to
`return FALSE;`, discarding the accumulated `Result`. -/
theorem forwardLoop_all_nonzero (env : ForwardEnv)
    (srcs : List DEBUGGER_EVENT_FORWARDING) (tags : Nat → Nat) :
    ∀ (fuel i : Nat) (Result : Bool), (∀ j, j < fuel → tags (i + j) ≠ 0) →
      forwardLoop env srcs tags fuel i Result = false
  | 0, _, _, _ => rfl
  | fuel + 1, i, Result, h => by
    rw [forwardLoop, if_neg (by simpa using h 0 (Nat.succ_pos _))]
    exact forwardLoop_all_nonzero env srcs tags fuel (i + 1) _ (fun j hj => by
      have hx := h (j + 1) (Nat.succ_lt_succ hj)
      simpa [show i + 1 + j = i + (j + 1) by omega] using hx)

/-- C10: when an event's `OutputSourceTags` array has no `NULL` entry among
its `DebuggerOutputSourceMaximumRemoteSourceForSingleEvent` slots,
`ForwardingPerformEventForwarding` returns `FALSE` — whatever the sink
outcomes were — because the accumulated per-sink `Result` is only returned
through the early return taken on a `NULL` slot, and the fall-through
return is unconditionally `FALSE`. -/
theorem forwarding_full_tags_returns_false (env : ForwardEnv)
    (srcs : List DEBUGGER_EVENT_FORWARDING) (tags : Nat → Nat)
    (h : ∀ i, i < DebuggerOutputSourceMaximumRemoteSourceForSingleEvent →
      tags i ≠ 0) :
    ForwardingPerformEventForwarding env srcs tags = false := by
  unfold ForwardingPerformEventForwarding
  exact forwardLoop_all_nonzero env srcs tags _ 0 false
    (fun j hj => by simpa using h j hj)

/-- C10 witness: a concrete all-non-`NULL` tag array against a matching,
opened module source — the module sink delivery succeeds (second conjunct),
yet the function returns `FALSE`. -/
theorem forwarding_full_tags_returns_false_witness :
    (∀ i, i < DebuggerOutputSourceMaximumRemoteSourceForSingleEvent →
      tags1 i ≠ 0) ∧
    searchAndSend fwdEnv0 [fwdSrc1] 1 false = true ∧
    ForwardingPerformEventForwarding fwdEnv0 [fwdSrc1] tags1 = false :=
  ⟨fun _ _ => Nat.one_ne_zero, rfl,
    forwarding_full_tags_returns_false fwdEnv0 [fwdSrc1] tags1
      (fun _ _ => Nat.one_ne_zero)⟩
